import Mathlib

/-!
Verification of the yt-dlp-qt glue application (`yt_dlp_qt/main.py`).

The file shallowly embeds the pure content of the application's core
functions — the worker's progress hook, the settings boolean coercion,
the yt-dlp option builders, configuration load, the quit sequence, the
clipboard monitor and the download submission — and proves or refutes
the specification claims about them.

Python values that flow through the settings layer are modelled by
`PyValue`; Python exceptions that escape a function are modelled by
`Except PyError`; a Python function that cannot raise is modelled by a
total Lean function.
-/

/-- A Python float as it arises from JSON decoding.  A number literal
with a fraction or exponent denotes the exact decimal value
`mantissa · 10 ^ exponent`; the special constants the decoder accepts
by default (`NaN`, `Infinity`, `-Infinity`) are separate values.  The
model keeps the exact decimal value; the IEEE-754 rounding Python's
`float` applies to it (rounding at the 17th significant digit,
underflow of tiny values to 0.0, overflow of huge values to the
infinities) is not modelled, and no claim depends on the numeric value
of a float beyond its presence. -/
inductive PyFloat where
  | finite : Int → Int → PyFloat
  | inf : PyFloat
  | negInf : PyFloat
  | nan : PyFloat
deriving DecidableEq, Repr

/-- A Python value as it appears in the settings layer: the scalars the
settings code itself passes around (strings from the backend, the
boolean and integer defaults of `apply_config`, `None`) together with
everything `json.loads` can decode — floats, lists and dicts included.
A dict is kept as its key/value sequence in Python's insertion order. -/
inductive PyValue where
  | bool : Bool → PyValue
  | int : Int → PyValue
  | float : PyFloat → PyValue
  | str : String → PyValue
  | list : List PyValue → PyValue
  | dict : List (String × PyValue) → PyValue
  | none : PyValue

/-- Python truthiness of a `PyValue` (`bool(v)` in Python): `False`,
`0`, `0.0`, the empty string, empty containers and `None` are falsy,
everything else truthy.  (A finite float is tested on its exact
decimal value; `nan` and the infinities are truthy.) -/
def pyTruthy : PyValue → Bool
  | .bool b => b
  | .int n => n != 0
  | .float (.finite m _) => m != 0
  | .float _ => true
  | .str s => s != ""
  | .list l => !l.isEmpty
  | .dict l => !l.isEmpty
  | .none => false

/-- A Python exception class, as far as the claims need to tell them
apart. -/
inductive PyError where
  | typeError : PyError
  | valueError : PyError
  | overflowError : PyError
deriving DecidableEq, Repr

/-- Model of Python `str.strip()`: remove whitespace from both ends.
(Python strips all Unicode whitespace; the model covers the ASCII
whitespace characters, which is exact on every input the claims use.) -/
def pyStrip (s : String) : String :=
  String.mk (((s.data.dropWhile Char.isWhitespace).reverse.dropWhile
    Char.isWhitespace).reverse)

/-- JSON insignificant whitespace (space, tab, newline, carriage return). -/
def jsonWhitespace (c : Char) : Bool :=
  c = ' ' || c = '\t' || c = '\n' || c = '\r'

/-- Numeric value of a digit string. -/
def digitsToNat (l : List Char) : Nat :=
  l.foldl (fun acc c => 10 * acc + (c.toNat - '0'.toNat)) 0

/-- Signed value of a validated decimal integer literal. -/
def intCharsValue : List Char → Int
  | '-' :: rest => - Int.ofNat (digitsToNat rest)
  | '+' :: rest => Int.ofNat (digitsToNat rest)
  | l => Int.ofNat (digitsToNat l)

/-- The shape Python `int()` accepts on a stripped string: an optional
sign, then at least one digit.  (Underscore digit grouping is not
modelled.) -/
def pyIntChars : List Char → Bool
  | '-' :: rest => !rest.isEmpty && rest.all Char.isDigit
  | '+' :: rest => !rest.isEmpty && rest.all Char.isDigit
  | l => !l.isEmpty && l.all Char.isDigit

/-- Value of a hexadecimal digit. -/
def hexDigitVal (c : Char) : Option Nat :=
  if '0' ≤ c ∧ c ≤ '9' then some (c.toNat - '0'.toNat)
  else if 'a' ≤ c ∧ c ≤ 'f' then some (c.toNat - 'a'.toNat + 10)
  else if 'A' ≤ c ∧ c ≤ 'F' then some (c.toNat - 'A'.toNat + 10)
  else Option.none

/-- Code unit denoted by the four hex digits of a `\uXXXX` escape. -/
def hexQuad (a b c d : Char) : Option Nat := do
  let x ← hexDigitVal a
  let y ← hexDigitVal b
  let z ← hexDigitVal c
  let w ← hexDigitVal d
  pure (((x * 16 + y) * 16 + z) * 16 + w)

/-- The character denoted by a single-character JSON string escape. -/
def jsonEscapeChar : Char → Option Char
  | '"' => some '"'
  | '\\' => some '\\'
  | '/' => some '/'
  | 'b' => some '\x08'
  | 'f' => some '\x0c'
  | 'n' => some '\n'
  | 'r' => some '\r'
  | 't' => some '\t'
  | _ => Option.none

/-- Decode the body of a JSON string literal after its opening quote,
as Python's strict decoder does: unescaped control characters below
U+0020 are rejected, the short escapes and `\uXXXX` are decoded, and a
high/low `\u` surrogate pair combines into one character.  Python keeps
a lone surrogate as a surrogate code unit in the decoded `str`; Lean
characters cannot carry surrogates, so the model maps a lone surrogate
to the null character — such a decoded string is non-empty and unequal
to `"true"` either way, which is all the settings layer looks at. -/
def parseStringBody (acc : List Char) : List Char → Option (String × List Char)
  | [] => Option.none
  | '"' :: rest => some (String.mk acc.reverse, rest)
  | '\\' :: 'u' :: a :: b :: c :: d :: rest =>
    match hexQuad a b c d with
    | Option.none => Option.none
    | some n =>
      if 0xD800 ≤ n ∧ n ≤ 0xDBFF then
        match rest with
        | '\\' :: 'u' :: a2 :: b2 :: c2 :: d2 :: rest2 =>
          match hexQuad a2 b2 c2 d2 with
          | some n2 =>
            if 0xDC00 ≤ n2 ∧ n2 ≤ 0xDFFF then
              parseStringBody
                (Char.ofNat (0x10000 + (n - 0xD800) * 0x400 + (n2 - 0xDC00)) :: acc)
                rest2
            else
              parseStringBody (Char.ofNat n :: acc)
                ('\\' :: 'u' :: a2 :: b2 :: c2 :: d2 :: rest2)
          | Option.none =>
            parseStringBody (Char.ofNat n :: acc)
              ('\\' :: 'u' :: a2 :: b2 :: c2 :: d2 :: rest2)
        | other => parseStringBody (Char.ofNat n :: acc) other
      else
        parseStringBody (Char.ofNat n :: acc) rest
  | '\\' :: e :: rest =>
    match jsonEscapeChar e with
    | some c => parseStringBody (c :: acc) rest
    | Option.none => Option.none
  | c :: rest =>
    if c.toNat < 0x20 then Option.none
    else parseStringBody (c :: acc) rest
termination_by cs => cs.length
decreasing_by all_goals (simp_wf; try omega)

/-- Insert a key/value pair into a decoded object the way Python dict
assignment does: an existing key keeps its position and takes the new
value (last occurrence wins), a new key is appended. -/
def dictInsert (key : String) (v : PyValue) :
    List (String × PyValue) → List (String × PyValue)
  | [] => [(key, v)]
  | (k, w) :: rest =>
    if k = key then (k, v) :: rest else (k, w) :: dictInsert key v rest

/-- The decoded integer for a JSON number without fraction or
exponent. -/
def mkInt (neg : Bool) (ipart : List Char) : PyValue :=
  let m : Int := Int.ofNat (digitsToNat ipart)
  .int (if neg then -m else m)

/-- The decoded float for a JSON number with a fraction or exponent:
the exact decimal value `±(ipart ++ fpart) · 10 ^ (e - |fpart|)`. -/
def mkFloat (neg : Bool) (ipart fpart : List Char) (e : Int) : PyValue :=
  let m : Int := Int.ofNat (digitsToNat (ipart ++ fpart))
  .float (.finite (if neg then -m else m) (e - fpart.length))

/-- Parse the fraction part `.digits` of a JSON number; absent (or a
dot without digits, which ends the number before the dot, as the
decoder's maximal-munch number regex does) yields `Option.none`. -/
def parseFrac : List Char → Option (List Char × List Char)
  | '.' :: rest =>
    let ds := rest.takeWhile Char.isDigit
    if ds.isEmpty then Option.none
    else some (ds, rest.dropWhile Char.isDigit)
  | _ => Option.none

/-- Parse the exponent part `e[±]digits` of a JSON number; absent (or
an `e` without digits, which ends the number before the `e`) yields
`Option.none`. -/
def parseExponent : List Char → Option (Int × List Char)
  | c :: rest =>
    if c = 'e' ∨ c = 'E' then
      let (esign, rest2) :=
        match rest with
        | '+' :: r => ((1 : Int), r)
        | '-' :: r => ((-1 : Int), r)
        | _ => ((1 : Int), rest)
      let ds := rest2.takeWhile Char.isDigit
      if ds.isEmpty then Option.none
      else some (esign * Int.ofNat (digitsToNat ds),
                 rest2.dropWhile Char.isDigit)
    else Option.none
  | [] => Option.none

/-- Finish a JSON number after its integer digits: attach the optional
fraction and exponent; a number with either is a float, otherwise an
integer. -/
def finishNumber (neg : Bool) (ipart rest : List Char) :
    Option (PyValue × List Char) :=
  match parseFrac rest with
  | some (fpart, rest2) =>
    match parseExponent rest2 with
    | some (e, rest3) => some (mkFloat neg ipart fpart e, rest3)
    | Option.none => some (mkFloat neg ipart fpart 0, rest2)
  | Option.none =>
    match parseExponent rest with
    | some (e, rest3) => some (mkFloat neg ipart [] e, rest3)
    | Option.none => some (mkInt neg ipart, rest)

/-- Parse a JSON number at the head of the input: optional minus, then
`0` or a nonzero digit followed by digits (so a leading zero ends the
number after the `0`, as in the decoder's number regex), then the
optional fraction and exponent. -/
def parseNumber (cs : List Char) : Option (PyValue × List Char) :=
  let (neg, cs1) :=
    match cs with
    | '-' :: rest => (true, rest)
    | _ => (false, cs)
  match cs1 with
  | [] => Option.none
  | c :: cs2 =>
    if c = '0' then finishNumber neg ['0'] cs2
    else if c.isDigit then
      finishNumber neg (cs1.takeWhile Char.isDigit)
        (cs1.dropWhile Char.isDigit)
    else Option.none

mutual

/-- Parse one JSON value at the head of the input (leading whitespace
already skipped): object, array, string, the literals
`true`/`false`/`null`, the constants `NaN`/`Infinity`/`-Infinity` the
Python decoder accepts by default, or a number.  The fuel argument
bounds the number of recursive-descent calls; each call either consumes
at least one character before passing the input on, or hands the input
unchanged to a callee that does, so more than `2·length + 1` calls are
impossible and the fuel `2·length + 2` supplied by `json_loads` can
never run out: `Option.none` always means a genuine
`JSONDecodeError`. -/
def parseValue : Nat → List Char → Option (PyValue × List Char)
  | 0, _ => Option.none
  | fuel + 1, cs =>
    match cs with
    | '\x7b' :: rest =>
      let rest1 := rest.dropWhile jsonWhitespace
      match rest1 with
      | '\x7d' :: rest2 => some (.dict [], rest2)
      | _ => parseMembers fuel rest1 []
    | '[' :: rest =>
      let rest1 := rest.dropWhile jsonWhitespace
      match rest1 with
      | ']' :: rest2 => some (.list [], rest2)
      | _ => parseItems fuel rest1 []
    | '"' :: rest =>
      match parseStringBody [] rest with
      | some (s, rest2) => some (.str s, rest2)
      | Option.none => Option.none
    | 't' :: 'r' :: 'u' :: 'e' :: rest => some (.bool true, rest)
    | 'f' :: 'a' :: 'l' :: 's' :: 'e' :: rest => some (.bool false, rest)
    | 'n' :: 'u' :: 'l' :: 'l' :: rest => some (.none, rest)
    | 'N' :: 'a' :: 'N' :: rest => some (.float .nan, rest)
    | 'I' :: 'n' :: 'f' :: 'i' :: 'n' :: 'i' :: 't' :: 'y' :: rest =>
      some (.float .inf, rest)
    | '-' :: 'I' :: 'n' :: 'f' :: 'i' :: 'n' :: 'i' :: 't' :: 'y' :: rest =>
      some (.float .negInf, rest)
    | _ => parseNumber cs

/-- Parse the elements of a non-empty JSON array, positioned at a value
with whitespace skipped; elements are separated by `,` (whitespace
around it skipped) and the array ends at `]`. -/
def parseItems : Nat → List Char → List PyValue →
    Option (PyValue × List Char)
  | 0, _, _ => Option.none
  | fuel + 1, cs, acc =>
    match parseValue fuel cs with
    | Option.none => Option.none
    | some (v, rest) =>
      let rest1 := rest.dropWhile jsonWhitespace
      match rest1 with
      | ',' :: rest2 =>
        parseItems fuel (rest2.dropWhile jsonWhitespace) (acc ++ [v])
      | ']' :: rest2 => some (.list (acc ++ [v]), rest2)
      | _ => Option.none

/-- Parse the members of a non-empty JSON object, positioned at a key
with whitespace skipped: a string key, `:`, a value, then `,` and the
next member or `}` (whitespace between tokens skipped); a repeated key
overwrites its earlier value, as Python dict assignment does. -/
def parseMembers : Nat → List Char → List (String × PyValue) →
    Option (PyValue × List Char)
  | 0, _, _ => Option.none
  | fuel + 1, cs, acc =>
    match cs with
    | '"' :: rest =>
      match parseStringBody [] rest with
      | Option.none => Option.none
      | some (key, rest1) =>
        let rest2 := rest1.dropWhile jsonWhitespace
        match rest2 with
        | ':' :: rest3 =>
          match parseValue fuel (rest3.dropWhile jsonWhitespace) with
          | Option.none => Option.none
          | some (v, rest4) =>
            let rest5 := rest4.dropWhile jsonWhitespace
            match rest5 with
            | ',' :: rest6 =>
              parseMembers fuel (rest6.dropWhile jsonWhitespace)
                (dictInsert key v acc)
            | '\x7d' :: rest6 => some (.dict (dictInsert key v acc), rest6)
            | _ => Option.none
        | _ => Option.none
    | _ => Option.none

end

/-- Model of the Python standard-library call `json.loads` on a
string: skip leading whitespace, parse one JSON value, and require
only whitespace to follow; anything else — including empty input,
malformed literals and trailing data — is a decode failure
(`Option.none` stands for `json.JSONDecodeError`). -/
def json_loads (s : String) : Option PyValue :=
  let cs := s.data.dropWhile jsonWhitespace
  match parseValue (2 * cs.length + 2) cs with
  | some (v, rest) =>
    if (rest.dropWhile jsonWhitespace).isEmpty then some v else Option.none
  | Option.none => Option.none

/-- `_bool(value)` from `main.py`: return `json.loads(value)`, and on a
`JSONDecodeError` fall back to `value == "true"`.  `json.loads` only
accepts strings, so a non-string argument raises `TypeError`, which the
`except json.JSONDecodeError` clause does not catch. -/
def _bool (value : PyValue) : Except PyError PyValue :=
  match value with
  | .str s =>
    match json_loads s with
    | some v => .ok v
    | Option.none => .ok (.bool (s == "true"))
  | _ => .error .typeError

/-- One progress callback payload from the download engine, as read by
`Worker._progress`: the `status` entry plus the optional byte counters
(`Option.none` models an absent dictionary key, whose access raises
`KeyError`). -/
structure ProgressInfo where
  status : String
  downloaded_bytes : Option Nat := Option.none
  total_bytes : Option Nat := Option.none
deriving DecidableEq, Repr

/-- `Worker._progress` from `main.py`, as the list of percent values it
emits on the `progress` signal for one callback.  On `"downloading"` it
computes `int(downloaded_bytes / total_bytes * 100)` inside a
`try/except Exception` that swallows every error (missing key, division
by zero), emitting nothing in that case; on `"finished"` it emits 100.
The division is modelled in exact integer arithmetic:
`int(d / t * 100)` equals `(100 * d) / t` (floor) whenever the
floating-point evaluation is exact, as it is on every input used below.
Totality of this function embeds the fact that no exception escapes the
handler. -/
def Worker._progress (info : ProgressInfo) : List Nat :=
  if info.status = "downloading" then
    match info.downloaded_bytes, info.total_bytes with
    | some d, some t => if t = 0 then [] else [(100 * d) / t]
    | _, _ => []
  else if info.status = "finished" then [100]
  else []

/-- The module-level tuple `AUDIO_CODECS` from `main.py`. -/
def AUDIO_CODECS : List String := ["aac", "vorbis", "mp3", "opus", "wav"]

/-- The module-level tuple `AUDIO_QUALITIES` from `main.py`. -/
def AUDIO_QUALITIES : List Nat := [0, 2, 5, 8]

/-- The module-level tuple `VIDEO_CONTAINERS` from `main.py`. -/
def VIDEO_CONTAINERS : List String := ["mp4", "mkv", "3gp", "flv", "webm"]

/-- The module-level tuple `VIDEO_RESOLUTIONS` from `main.py`. -/
def VIDEO_RESOLUTIONS : List Nat := [2160, 1440, 1080, 720, 480]

/-- Python sequence indexing `xs[i]`: a negative index counts from the
end; an index out of range raises `IndexError`, modelled as
`Option.none`. -/
def pyIndex (xs : List α) (i : Int) : Option α :=
  if 0 ≤ i then xs.get? i.toNat
  else if 0 ≤ i + xs.length then xs.get? (i + xs.length).toNat
  else Option.none

/-- One entry of the `postprocessors` list of a yt-dlp options dict, as
built by `_get_audio_options`: the keys `key`, `preferredcodec` and
`preferredquality`. -/
structure Postprocessor where
  key : String
  preferredcodec : String
  preferredquality : Nat
deriving DecidableEq, Repr

/-- A yt-dlp options dict as built by `get_ytdlp_options` and its two
helpers.  Each optional field models the presence or absence of the
corresponding dictionary key; `paths` holds the value of the nested
`home` entry of the `paths` dict, and `outtmpl` the value of the nested
`default` entry of the `outtmpl` dict, the only entries the code ever
writes.  Two options dicts are equal exactly when the structures are. -/
structure Options where
  format : String
  postprocessors : Option (List Postprocessor) := Option.none
  paths : Option String := Option.none
  outtmpl : Option String := Option.none
deriving DecidableEq, Repr

/-- The widget state of the main window that the option builders, the
configuration load and the clipboard/download handlers read or write:
combo-box indices (`currentIndex`, an `Int` since Qt uses -1 for no
selection), check boxes, line edits, window geometry, and the
`last_url` attribute. -/
structure UIState where
  video_resolution : Int := 0
  video_format : Int := 0
  audio_quality : Int := 0
  audio_format : Int := 0
  audio_only : Bool := false
  output_path : String := ""
  output_name : String := ""
  monitor_clipboard : Bool := false
  own_format : String := ""
  window_x : Int := 0
  window_y : Int := 0
  window_width : Int := 0
  window_height : Int := 0
  last_url : String := ""
  url : String := ""
deriving DecidableEq, Repr

/-- `YtDlpQt._get_audio_options`: select the codec and quality by combo
index and build the audio options dict.  `Option.none` models the
`IndexError` of an out-of-range index. -/
def _get_audio_options (audio_format audio_quality : Int) : Option Options := do
  let codec ← pyIndex AUDIO_CODECS audio_format
  let quality ← pyIndex AUDIO_QUALITIES audio_quality
  pure { format := codec ++ "/bestaudio/best",
         postprocessors := some [{ key := "FFmpegExtractAudio",
                                   preferredcodec := codec,
                                   preferredquality := quality }] }

/-- `YtDlpQt._get_video_options`: select the container and resolution by
combo index, pick `m4a` as the audio part for `mp4` and `bestaudio`
otherwise, and build the format string. -/
def _get_video_options (video_format video_resolution : Int) : Option Options := do
  let container ← pyIndex VIDEO_CONTAINERS video_format
  let resolution ← pyIndex VIDEO_RESOLUTIONS video_resolution
  let audio_codec := if container = "mp4" then "m4a" else "bestaudio"
  pure { format := container ++ "[height=" ++ toString resolution ++ "]+"
                   ++ audio_codec ++ "/bestvideo[height<=" ++ toString resolution
                   ++ "]+bestaudio" }

/-- `YtDlpQt.get_ytdlp_options`: take the audio or the video options
according to the audio-only check box, overwrite `format` with the
stripped expert override when that is non-empty (the walrus
`if text := self.own_format.text().strip():`), then add the `paths`
(home) and `outtmpl` (default) entries. -/
def get_ytdlp_options (ui : UIState) : Option Options :=
  match (if ui.audio_only then
           _get_audio_options ui.audio_format ui.audio_quality
         else
           _get_video_options ui.video_format ui.video_resolution) with
  | Option.none => Option.none
  | some options =>
    let text := pyStrip ui.own_format
    let options := if text ≠ "" then { options with format := text } else options
    some { options with paths := some ui.output_path,
                        outtmpl := some ui.output_name }

/-- `YtDlpQt.start_download`: strip the URL field; when the result is
empty return at once, leaving the queue untouched and building no
options; otherwise build the options and enqueue the job.  The outer
`Option` is `Option.none` when option building raises. -/
def start_download (ui : UIState) (queue : List (String × Options)) :
    Option (List (String × Options)) :=
  let url := pyStrip ui.url
  if url = "" then some queue
  else (get_ytdlp_options ui).map (fun options => queue ++ [(url, options)])

/-- Result of one `YtDlpQt.check_clipboard` run: the new `last_url`
attribute, the new URL field content, and whether `url.setText` was
called at all. -/
structure ClipResult where
  last_url : String
  url : String
  urlWritten : Bool
deriving DecidableEq, Repr

/-- Python substring containment `sub in s`: `sub` is a prefix of some
suffix of `s`. -/
def strContains (s sub : String) : Bool :=
  (List.range (s.data.length + 1)).any
    (fun i => List.isPrefixOf sub.data (s.data.drop i))

/-- `YtDlpQt.check_clipboard`: when clipboard monitoring is enabled and
the stripped clipboard text is non-empty (the walrus
`if text := self.clipboard.text().strip():`), contains `"://"` and
differs from `last_url`, store it as the new `last_url` and write it
into the URL field; in every other case change nothing. -/
def check_clipboard (monitor : Bool) (clipText lastUrl urlField : String) :
    ClipResult :=
  if monitor then
    let text := pyStrip clipText
    if text ≠ "" then
      if strContains text "://" && text != lastUrl then
        { last_url := text, url := text, urlWritten := true }
      else
        { last_url := lastUrl, url := urlField, urlWritten := false }
    else
      { last_url := lastUrl, url := urlField, urlWritten := false }
  else
    { last_url := lastUrl, url := urlField, urlWritten := false }

/-- A settings backend: a partial map from key to stored value.  The
INI/registry backends of `QSettings` store scalars as strings (a stored
boolean reads back as `"true"`/`"false"`), so present values are
strings; an absent key makes `QSettings.value` return the supplied
default object unchanged. -/
def SettingsStore : Type := String → Option String

/-- `QSettings.value(key, default)`: the stored string when the key is
present, the default object otherwise. -/
def settings_value (store : SettingsStore) (key : String)
    (default : PyValue) : PyValue :=
  match store key with
  | some s => .str s
  | Option.none => default

/-- Python `int(x)` on a float: truncation toward zero of the exact
decimal value; the infinities raise `OverflowError` and `nan` raises
`ValueError`. -/
def pyIntOfFloat : PyFloat → Except PyError Int
  | .finite m e =>
    if 0 ≤ e then .ok (m * 10 ^ e.toNat)
    else .ok (Int.tdiv m (10 ^ (-e).toNat))
  | .nan => .error .valueError
  | .inf => .error .overflowError
  | .negInf => .error .overflowError

/-- Python `int(x)` as used on settings values: integers pass through,
booleans convert, floats truncate, strings are parsed after stripping
whitespace (`ValueError` on parse failure), and `None`, lists and
dicts raise `TypeError`. -/
def pyInt : PyValue → Except PyError Int
  | .int n => .ok n
  | .bool b => .ok (if b then 1 else 0)
  | .float f => pyIntOfFloat f
  | .str s =>
    let cs := (pyStrip s).data
    if pyIntChars cs then .ok (intCharsValue cs) else .error .valueError
  | _ => .error .typeError

/-- The Qt binding's argument conversion for `setChecked`: booleans and
integers convert to a C++ bool, other Python objects raise
`TypeError`. -/
def pySetChecked : PyValue → Except PyError Bool
  | .bool b => .ok b
  | .int n => .ok (n != 0)
  | _ => .error .typeError

/-- The Qt binding's argument conversion for `setText`: only strings
are accepted. -/
def pySetText : PyValue → Except PyError String
  | .str s => .ok s
  | _ => .error .typeError

/-- The plain attribute assignment `self.last_url = ...`: any value is
accepted.  Settings values in this model are strings (and the default
here is the string `""`), so the string projection is exact. -/
def pyValueStr : PyValue → String
  | .str s => s
  | _ => ""

/-- `YtDlpQt.apply_config`: read every settings key with its literal
default from `main.py` and push the values into the widgets, in source
order; the first uncaught exception aborts the whole method.
`download_location` stands for the result of the filesystem probe
`_get_download_location()`.  `setCurrentIndex` is modelled as storing
the index (the layout's combo boxes carry exactly the entries of the
module tuples, and every index the claims exercise is in range). -/
def apply_config (store : SettingsStore) (download_location : String)
    (ui : UIState) : Except PyError UIState := do
  let video_resolution ← pyInt (settings_value store "video/resolution" (.int 2))
  let video_format ← pyInt (settings_value store "video/format" (.int 0))
  let audio_quality ← pyInt (settings_value store "audio/quality" (.int 0))
  let audio_format ← pyInt (settings_value store "audio/format" (.int 0))
  let audio_only ← pySetChecked (← _bool (settings_value store "audio/only" (.bool false)))
  let output_path ← pySetText (settings_value store "output/path" (.str download_location))
  let output_name ← pySetText (settings_value store "output/name" (.str "%(title)s.%(ext)s"))
  let monitor_clipboard ← pySetChecked (← _bool (settings_value store "clipboard/monitor" (.bool false)))
  let own_format ← pySetText (settings_value store "expert/format" (.str ""))
  let window_x ← pyInt (settings_value store "window/x" (.int 0))
  let window_y ← pyInt (settings_value store "window/y" (.int 0))
  let window_width ← pyInt (settings_value store "window/width" (.int 440))
  let window_height ← pyInt (settings_value store "window/height" (.int 440))
  let last_url := pyValueStr (settings_value store "url/last" (.str ""))
  pure { ui with
         video_resolution := video_resolution,
         video_format := video_format,
         audio_quality := audio_quality,
         audio_format := audio_format,
         audio_only := audio_only,
         output_path := output_path,
         output_name := output_name,
         monitor_clipboard := monitor_clipboard,
         own_format := own_format,
         window_x := window_x,
         window_y := window_y,
         window_width := window_width,
         window_height := window_height,
         last_url := last_url }

/-- The settings backend of a fresh profile: every key absent. -/
def emptyStore : SettingsStore := fun _ => Option.none

/-- One observable step of the quit sequence: a settings write, the
durable flush, hiding the window, setting the shutdown event, joining
the worker thread, stopping the worker's event loop, and quitting the
application. -/
inductive AppEvent where
  | setValue : String → AppEvent
  | sync : AppEvent
  | hide : AppEvent
  | shutdownSet : AppEvent
  | workerWait : AppEvent
  | workerQuit : AppEvent
  | appQuit : AppEvent
deriving DecidableEq, Repr

/-- The sequence of settings-backend calls performed by
`YtDlpQt.dump_config`, in source order, ending with `sync()`. -/
def dump_config_trace : List AppEvent :=
  [.setValue "video/resolution", .setValue "video/format",
   .setValue "audio/quality", .setValue "audio/format",
   .setValue "audio/only", .setValue "output/path",
   .setValue "output/name", .setValue "clipboard/monitor",
   .setValue "expert/format", .setValue "window/x", .setValue "window/y",
   .setValue "window/width", .setValue "window/height",
   .setValue "url/last", .sync]

/-- The sequence of steps performed by `YtDlpQt._quit`:
`dump_config()`, `hide()`, `shutdown.set()`, `worker.wait()`,
`worker.quit()`, `app.quit()`. -/
def quit_trace : List AppEvent :=
  dump_config_trace ++ [.hide, .shutdownSet, .workerWait, .workerQuit, .appQuit]

/-- A persistence step of the quit sequence: a settings write or the
durable flush. -/
def isPersistEvent : AppEvent → Bool
  | .setValue _ => true
  | .sync => true
  | _ => false

/-- A concrete UI state with audio-only checked, audio codec index 3
(`opus`), audio quality index 2, a blank expert override and typical
output settings. -/
def c3_ui : UIState :=
  { audio_only := true, audio_format := 3, audio_quality := 2,
    own_format := "", output_path := "/dl",
    output_name := "%(title)s.%(ext)s" }

/-- The options dict the specification scenario claims for the
audio-only `opus` job: exactly the `format` and `postprocessors`
keys. -/
def c3_claimed_options : Options :=
  { format := "opus/bestaudio/best",
    postprocessors := some [{ key := "FFmpegExtractAudio",
                              preferredcodec := "opus",
                              preferredquality := 5 }] }

/-- A concrete UI state with audio-only unchecked, container index 0
(`mp4`), resolution index 2 (`1080`) and a blank expert override. -/
def c4_ui : UIState :=
  { audio_only := false, video_format := 0, video_resolution := 2,
    own_format := "", output_path := "/videos",
    output_name := "out.%(ext)s" }

/-- A concrete UI state whose expert override field holds
`" bestvideo+bestaudio "` (non-empty after stripping), with unrelated
video selections. -/
def c5_ui : UIState :=
  { audio_only := false, video_format := 1, video_resolution := 0,
    own_format := " bestvideo+bestaudio ", output_path := "/out",
    output_name := "n" }

/-- The options dict `get_ytdlp_options` builds for `c5_ui`. -/
def c5_options : Options :=
  { format := "bestvideo+bestaudio", paths := some "/out",
    outtmpl := some "n" }

/-! ## Theorems -/

/-- C1, counterexample: on a `"downloading"` callback with
`downloaded_bytes = 2` and `total_bytes = 1` (a positive total, and an
input on which the Python floating-point evaluation is exact) the
handler emits 200, not the claimed value
`floor(100 * 2 / 1)` clamped to the interval `[0, 100]`, which is 100:
the code never clamps. -/
theorem c1_counterexample :
    Worker._progress { status := "downloading", downloaded_bytes := some 2,
                       total_bytes := some 1 } = [200] ∧
    min (max ((100 * 2) / 1) 0) 100 = 100 ∧ (200 : Nat) ≠ 100 := by
  decide

/-- C1, amended: for every `"downloading"` callback with
`total_bytes = t > 0` the handler emits exactly one progress event
whose value is `floor(100 * downloaded_bytes / t)` with no clamping;
whenever `downloaded_bytes ≤ t` this value already lies in `[0, 100]`,
so it coincides with the clamped value there. -/
theorem c1_amended (d t : Nat) (h : 0 < t) :
    Worker._progress { status := "downloading", downloaded_bytes := some d,
                       total_bytes := some t } = [(100 * d) / t] ∧
    (d ≤ t → (100 * d) / t ≤ 100) := by
  constructor
  · simp [Worker._progress, h.ne']
  · intro hdt
    rw [Nat.div_le_iff_le_mul_add_pred h]
    omega

/-- C1, witness: the amended theorem at `downloaded_bytes = 50`,
`total_bytes = 200`. -/
theorem c1_witness :
    Worker._progress { status := "downloading", downloaded_bytes := some 50,
                       total_bytes := some 200 } = [(100 * 50) / 200] ∧
    (50 ≤ 200 → (100 * 50) / 200 ≤ 100) :=
  c1_amended 50 200 (by decide)

/-- C2, counterexample: the stored value `"1"` is neither the JSON
literal `true` nor the string `"true"`, yet `_bool` does not return
false: it returns the decoded integer 1, which is truthy. -/
theorem c2_counterexample :
    _bool (.str "1") = .ok (.int 1) ∧ pyTruthy (.int 1) = true ∧
    json_loads "1" ≠ some (.bool true) ∧ "1" ≠ "true" := by
  refine ⟨rfl, rfl, ?_, by decide⟩
  intro h
  rw [show json_loads "1" = some (.int 1) from rfl] at h
  exact PyValue.noConfusion (Option.some.inj h)

/-- C2, amended: `_bool` returns the decoded JSON value whenever the
stored string parses as JSON — so the coerced boolean is the truthiness
of that value, and inputs such as `"1"` coerce to true — and when
decoding fails it returns the comparison `v == "true"`, which is then
always false because the string `"true"` itself always decodes. -/
theorem c2_amended (s : String) :
    (∀ v, json_loads s = some v → _bool (.str s) = .ok v) ∧
    (json_loads s = Option.none → _bool (.str s) = .ok (.bool false)) := by
  constructor
  · intro v hv
    simp [_bool, hv]
  · intro hn
    have hne : s ≠ "true" := by
      intro h
      rw [h] at hn
      rw [show json_loads "true" = some (.bool true) from rfl] at hn
      exact Option.noConfusion hn
    simp [_bool, hn, hne]

/-- C2, witness: the amended theorem at the undecodable stored value
`"not json"`. -/
theorem c2_witness : _bool (.str "not json") = .ok (.bool false) :=
  (c2_amended "not json").2 rfl

/-- C3, counterexample: at the scenario's UI state (audio-only checked,
codec index 3 = `opus`, quality index 2, blank override) the options
built for the job also carry the `paths` and `outtmpl` entries that
`get_ytdlp_options` always adds, so they do not equal the claimed
two-key dict. -/
theorem c3_counterexample :
    get_ytdlp_options c3_ui =
      some { c3_claimed_options with
             paths := some "/dl",
             outtmpl := some "%(title)s.%(ext)s" } ∧
    get_ytdlp_options c3_ui ≠ some c3_claimed_options := by
  constructor
  · rfl
  · decide

/-- C3, amended: with audio-only checked, codec index 3 and quality
index 2, `_get_audio_options` returns exactly the claimed dict
(format `opus/bestaudio/best` and the `FFmpegExtractAudio`
postprocessor with codec `opus` and quality 5), and the options built
for the job equal that dict extended with the `paths` (home = output
path) and `outtmpl` (default = output name) entries, provided the
expert override is blank. -/
theorem c3_amended (ui : UIState) (h1 : ui.audio_only = true)
    (h2 : ui.audio_format = 3) (h3 : ui.audio_quality = 2)
    (h4 : pyStrip ui.own_format = "") :
    _get_audio_options ui.audio_format ui.audio_quality =
      some c3_claimed_options ∧
    get_ytdlp_options ui =
      some { c3_claimed_options with
             paths := some ui.output_path,
             outtmpl := some ui.output_name } := by
  have hbase : _get_audio_options ui.audio_format ui.audio_quality =
      some c3_claimed_options := by
    rw [h2, h3]; rfl
  refine ⟨hbase, ?_⟩
  simp [get_ytdlp_options, h1, hbase, h4]

/-- C3, witness: the amended theorem at the concrete state `c3_ui`. -/
theorem c3_witness :
    _get_audio_options c3_ui.audio_format c3_ui.audio_quality =
      some c3_claimed_options ∧
    get_ytdlp_options c3_ui =
      some { c3_claimed_options with
             paths := some "/dl",
             outtmpl := some "%(title)s.%(ext)s" } :=
  c3_amended c3_ui rfl rfl rfl rfl


/-- C4: with audio-only unchecked, container index 0 (`mp4`),
resolution index 2 (`1080`) and a blank expert override, the options
built for the job have format
`mp4[height=1080]+m4a/bestvideo[height<=1080]+bestaudio` (together
with the always-added `paths` and `outtmpl` entries and no
postprocessors). -/
theorem c4_confirmed (ui : UIState) (h1 : ui.audio_only = false)
    (h2 : ui.video_format = 0) (h3 : ui.video_resolution = 2)
    (h4 : pyStrip ui.own_format = "") :
    get_ytdlp_options ui =
      some { format := "mp4[height=1080]+m4a/bestvideo[height<=1080]+bestaudio",
             paths := some ui.output_path,
             outtmpl := some ui.output_name } := by
  have hbase : _get_video_options ui.video_format ui.video_resolution =
      some { format := "mp4[height=1080]+m4a/bestvideo[height<=1080]+bestaudio" } := by
    rw [h2, h3]; rfl
  simp [get_ytdlp_options, h1, hbase, h4]

/-- C4, witness: the theorem at the concrete state `c4_ui`. -/
theorem c4_witness :
    get_ytdlp_options c4_ui =
      some { format := "mp4[height=1080]+m4a/bestvideo[height<=1080]+bestaudio",
             paths := some "/videos",
             outtmpl := some "out.%(ext)s" } :=
  c4_confirmed c4_ui rfl rfl rfl rfl

/-- C5: whenever the expert format override strips to a non-empty
string, any options dict built for a submitted job carries exactly that
stripped string as its format, whatever the audio-only, container,
resolution, codec and quality selections are. -/
theorem c5_confirmed (ui : UIState) (options : Options)
    (h : pyStrip ui.own_format ≠ "")
    (ho : get_ytdlp_options ui = some options) :
    options.format = pyStrip ui.own_format := by
  unfold get_ytdlp_options at ho
  cases hbase : (if ui.audio_only then
                   _get_audio_options ui.audio_format ui.audio_quality
                 else
                   _get_video_options ui.video_format ui.video_resolution) with
  | none =>
    rw [hbase] at ho
    exact absurd ho (by simp)
  | some base =>
    rw [hbase] at ho
    dsimp only at ho
    rw [if_pos h] at ho
    cases ho
    rfl

/-- C5, witness: the theorem at the concrete state `c5_ui`, whose
override strips to `bestvideo+bestaudio`. -/
theorem c5_witness : c5_options.format = pyStrip c5_ui.own_format :=
  c5_confirmed c5_ui c5_options (by decide) (by decide)

/-- C6, code bug: on a fresh profile with every settings key absent,
`apply_config` does not yield the documented defaults — it raises.  The
read of `audio/only` returns the Python default object `False`, and
`_bool(False)` calls `json.loads(False)`, which raises `TypeError`; the
handler catches only `json.JSONDecodeError`, so the error escapes and
the assignments after `audio/only` (output name, clipboard monitor,
expert format, geometry, last URL) are never applied. -/
theorem c6_bug :
    apply_config emptyStore "/home/user/Downloads" {} =
      .error PyError.typeError := by
  rfl

/-- C7: a `"downloading"` callback on which the percentage computation
fails — a byte counter missing or a zero total — emits no progress
event; the handler's `except` swallows the error, which the totality of
the embedded function reflects. -/
theorem c7_confirmed (info : ProgressInfo) (h1 : info.status = "downloading")
    (h2 : info.downloaded_bytes = Option.none ∨
          info.total_bytes = Option.none ∨ info.total_bytes = some 0) :
    Worker._progress info = [] := by
  obtain ⟨s, d, t⟩ := info
  cases d <;> cases t <;> simp_all [Worker._progress]

/-- C7, witness: the theorem on a callback with a missing total. -/
theorem c7_witness :
    Worker._progress { status := "downloading", downloaded_bytes := some 7 } = [] :=
  c7_confirmed { status := "downloading", downloaded_bytes := some 7 } rfl
    (Or.inr (Or.inl rfl))

/-- C8: in the quit sequence every settings write and the durable flush
precede the shutdown signal, the shutdown signal precedes the join of
the worker thread, and the join precedes the application quit. -/
theorem c8_confirmed :
    (∀ e ∈ quit_trace, isPersistEvent e = true →
        quit_trace.indexOf e < quit_trace.indexOf AppEvent.shutdownSet) ∧
    quit_trace.indexOf AppEvent.sync < quit_trace.indexOf AppEvent.shutdownSet ∧
    quit_trace.indexOf AppEvent.shutdownSet < quit_trace.indexOf AppEvent.workerWait ∧
    quit_trace.indexOf AppEvent.workerWait < quit_trace.indexOf AppEvent.appQuit := by
  decide

/-- C8, witness: the theorem's universal part at the last settings
write of `dump_config`. -/
theorem c8_witness :
    quit_trace.indexOf (AppEvent.setValue "url/last") <
      quit_trace.indexOf AppEvent.shutdownSet :=
  c8_confirmed.1 (AppEvent.setValue "url/last") (by decide) (by decide)

/-- C9: when the stripped clipboard text equals the last-seen URL the
check changes nothing, monitoring enabled or not; and the URL field is
written exactly when monitoring is enabled, the stripped text is
non-empty, contains `"://"` and differs from the last-seen URL. -/
theorem c9_confirmed (monitor : Bool) (clipText lastUrl urlField : String) :
    (pyStrip clipText = lastUrl →
      check_clipboard monitor clipText lastUrl urlField =
        { last_url := lastUrl, url := urlField, urlWritten := false }) ∧
    ((check_clipboard monitor clipText lastUrl urlField).urlWritten = true ↔
      monitor = true ∧ pyStrip clipText ≠ "" ∧
      strContains (pyStrip clipText) "://" = true ∧
      pyStrip clipText ≠ lastUrl) := by
  unfold check_clipboard
  cases monitor with
  | false => simp
  | true =>
    by_cases he : pyStrip clipText = ""
    · simp [he]
    · by_cases hc : strContains (pyStrip clipText) "://" = true
      · by_cases hl : pyStrip clipText = lastUrl
        · simp [he, hc, hl]
        · simp [he, hc, hl]
      · simp [he, hc]

/-- C9, witness: the theorem's first part where the clipboard strips to
exactly the last-seen URL while monitoring is enabled. -/
theorem c9_witness :
    check_clipboard true " http://a " "http://a" "field" =
      { last_url := "http://a", url := "field", urlWritten := false } :=
  (c9_confirmed true " http://a " "http://a" "field").1 (by decide)

/-- C10: when the URL field strips to the empty string,
`start_download` returns at once: the queue is unchanged and no options
dict is built (the option builder sits only in the untaken branch). -/
theorem c10_confirmed (ui : UIState) (queue : List (String × Options))
    (h : pyStrip ui.url = "") :
    start_download ui queue = some queue := by
  simp [start_download, h]

/-- C10, witness: the theorem on a whitespace-only URL field and an
empty queue. -/
theorem c10_witness : start_download { url := "   " } [] = some [] :=
  c10_confirmed { url := "   " } [] (by decide)
